import Mathlib

/-!
Verification of the DSControl control-plane protocol and server
(`src/dscontrol/protocol.py` and `src/dscontrol/server/app.py`) against its
natural-language specification.

The wire layer is modelled at the JSON-value level: `json.dumps`/`json.loads`
are inverse on the JSON-representable dictionaries the program exchanges, so
`to_json`/`from_json` here consume and produce a `Json` value; undecodable
bytes (invalid UTF-8 or invalid JSON text) are the `none` input of `from_json`.
Python floats appearing only as opaque timestamps are modelled as rationals.
Python dicts are modelled as association lists keyed by strings.
-/

namespace DSControl

/-- JSON values, the image of `json.loads`. -/
inductive Json where
  | null : Json
  | bool (b : Bool) : Json
  | num (q : ℚ) : Json
  | str (s : String) : Json
  | arr (elems : List Json) : Json
  | obj (fields : List (String × Json)) : Json

/-- Python truthiness of a JSON value, as used by `raw.get("payload") or {}`
and `if not msg_type_str:` in `ProtocolMessage.from_json`. -/
def jtruthy : Json → Bool
  | .null => false
  | .bool b => b
  | .num q => !(q == 0)
  | .str s => !(s == "")
  | .arr elems => !elems.isEmpty
  | .obj fields => !fields.isEmpty

/-- `protocol.MessageType` (a str-valued enum). -/
inductive MessageType where
  | HELLO | HEARTBEAT | COMMAND | STATUS | ERROR
deriving DecidableEq

def MessageType.value : MessageType → String
  | .HELLO => "HELLO"
  | .HEARTBEAT => "HEARTBEAT"
  | .COMMAND => "COMMAND"
  | .STATUS => "STATUS"
  | .ERROR => "ERROR"

/-- `MessageType(s)`: succeeds exactly on the five enum values. -/
def MessageType.fromString (s : String) : Option MessageType :=
  if s = "HELLO" then some .HELLO
  else if s = "HEARTBEAT" then some .HEARTBEAT
  else if s = "COMMAND" then some .COMMAND
  else if s = "STATUS" then some .STATUS
  else if s = "ERROR" then some .ERROR
  else none

/-- `protocol.CommandType` (a str-valued enum). -/
inductive CommandType where
  | enable | disable | estop | teleop | auto | practice | test
deriving DecidableEq

def CommandType.value : CommandType → String
  | .enable => "enable"
  | .disable => "disable"
  | .estop => "estop"
  | .teleop => "teleop"
  | .auto => "auto"
  | .practice => "practice"
  | .test => "test"

/-- `CommandType(s)`: succeeds exactly on the seven enum values. -/
def CommandType.fromString (s : String) : Option CommandType :=
  if s = "enable" then some .enable
  else if s = "disable" then some .disable
  else if s = "estop" then some .estop
  else if s = "teleop" then some .teleop
  else if s = "auto" then some .auto
  else if s = "practice" then some .practice
  else if s = "test" then some .test
  else none

/-- `protocol.ProtocolMessage`: a protocol frame. The payload is the dict of
the `payload` field. -/
structure ProtocolMessage where
  type : MessageType
  payload : List (String × Json)

/-- `ProtocolMessage.to_json`: the JSON value serialized onto the wire. -/
def ProtocolMessage.to_json (m : ProtocolMessage) : Json :=
  .obj [("type", .str m.type.value), ("payload", .obj m.payload)]

/-- The distinct `ProtocolError` cases raised by `ProtocolMessage.from_json`. -/
inductive ProtoErr where
  | invalidJson | missingType | unknownType | payloadNotObject
deriving DecidableEq

/-- Outcome of `ProtocolMessage.from_json`. `attrError` is the Python
`AttributeError` raised by `raw.get` when the decoded top level is not a dict;
it is not a `ProtocolError` and escapes the `except` clauses. -/
inductive DecodeOutcome where
  | ok (m : ProtocolMessage)
  | protoError (e : ProtoErr)
  | attrError

/-- `ProtocolMessage.from_json`. The `none` input stands for bytes that are not
valid UTF-8 or not valid JSON text. Mirrors the source line by line:
falsy `type` is "Missing message type"; `payload = raw.get("payload") or {}`
replaces a falsy payload by the empty dict before the `isinstance` check. -/
def from_json : Option Json → DecodeOutcome
  | none => .protoError .invalidJson
  | some (.obj fields) =>
      match fields.lookup "type" with
      | none => .protoError .missingType
      | some tv =>
          if jtruthy tv then
            match tv with
            | .str s =>
                match MessageType.fromString s with
                | some t =>
                    let p : Json :=
                      match fields.lookup "payload" with
                      | none => .obj []
                      | some pv => if jtruthy pv then pv else .obj []
                    match p with
                    | .obj pf => .ok ⟨t, pf⟩
                    | _ => .protoError .payloadNotObject
                | none => .protoError .unknownType
            | _ => .protoError .unknownType
          else .protoError .missingType
  | some _ => .attrError

/-- `protocol.StatusReport`. -/
structure StatusReport where
  robot_state : String
  last_command_by : Option String
  last_command_at : Option ℚ
  connected_clients : ℕ
  ds_state : Option String
deriving DecidableEq

def optStrJson : Option String → Json
  | none => .null
  | some s => .str s

def optNumJson : Option ℚ → Json
  | none => .null
  | some q => .num q

/-- `StatusReport.to_payload`; `now` is the `time.time()` timestamp. -/
def StatusReport.to_payload (r : StatusReport) (now : ℚ) : List (String × Json) :=
  [("robot_state", .str r.robot_state),
   ("last_command_by", optStrJson r.last_command_by),
   ("last_command_at", optNumJson r.last_command_at),
   ("connected_clients", .num (r.connected_clients : ℚ)),
   ("ds_state", optStrJson r.ds_state),
   ("timestamp", .num now)]

/-- `protocol.make_hello`. -/
def make_hello (client_id : String) : ProtocolMessage :=
  ⟨.HELLO, [("client_id", .str client_id)]⟩

/-- `protocol.make_heartbeat`; `now` is the `time.time()` timestamp. -/
def make_heartbeat (client_id : String) (now : ℚ) : ProtocolMessage :=
  ⟨.HEARTBEAT, [("client_id", .str client_id), ("timestamp", .num now)]⟩

/-- `protocol.make_command`. -/
def make_command (client_id : String) (command : CommandType) (now : ℚ) : ProtocolMessage :=
  ⟨.COMMAND, [("client_id", .str client_id), ("timestamp", .num now),
              ("command", .str command.value)]⟩

/-- `protocol.make_status`. -/
def make_status (report : StatusReport) (now : ℚ) : ProtocolMessage :=
  ⟨.STATUS, report.to_payload now⟩

/-- `protocol.make_error`. -/
def make_error (message : String) (now : ℚ) : ProtocolMessage :=
  ⟨.ERROR, [("error", .str message), ("timestamp", .num now)]⟩

/-! Server model (`src/dscontrol/server/app.py`). Wall-clock reads
(`time.time()`) are passed in as the `now` argument. The
`DriverStationController` collaborator is a black box returning a
`ControlResult` per call, modelled by the `Controller` record. Frames the
server would write to the transport are collected as a list of
message/address pairs. -/

abbrev ClientAddress := String × ℕ

/-- `app.ClientSession` (the `client_id` is the key in the session dict). -/
structure ClientSession where
  address : ClientAddress
  last_heartbeat : ℚ
deriving DecidableEq

/-- The fields of `app.ServerConfig` the control logic reads. -/
structure ServerConfig where
  heartbeat_timeout : ℚ
  require_hello : Bool
  enable_pipeline : Bool
deriving DecidableEq

/-- `control_interface.ControlResult`. -/
structure ControlResult where
  success : Bool
  message : String
  backend : String
deriving DecidableEq

/-- `control_interface.RobotMode`. -/
inductive RobotMode where
  | TELEOP | AUTO | PRACTICE | TEST
deriving DecidableEq

/-- The executor collaborator (`DriverStationController`) at its interface
boundary: each call returns a `ControlResult`. -/
structure Controller where
  enableResult : ControlResult
  disableResult : ControlResult
  estopResult : ControlResult
  setModeResult : RobotMode → ControlResult

/-- The server's environment: configuration, executor, and the detection
pipeline's current `ds_state` string (read when `enable_pipeline`). -/
structure Env where
  config : ServerConfig
  controller : Controller
  pipeline_ds_state : String

/-- The mutable server state of `DriverStationServer`. `sessions` models the
insertion-ordered `Dict[str, ClientSession]` as an association list with
unique keys. -/
structure ServerState where
  sessions : List (String × ClientSession)
  robot_state : String
  last_command_by : Option String
  last_command_at : Option ℚ

/-- A frame the server sends, paired with the destination address. -/
abbrev Sent := ProtocolMessage × ClientAddress

/-- `DriverStationServer._status_report`. -/
def status_report (env : Env) (s : ServerState) : StatusReport :=
  { robot_state := s.robot_state
    last_command_by := s.last_command_by
    last_command_at := s.last_command_at
    connected_clients := s.sessions.length
    ds_state := if env.config.enable_pipeline then some env.pipeline_ds_state else some "" }

/-- `DriverStationServer._broadcast_status`: skips entirely when the session
table is empty, otherwise sends one STATUS frame per session. -/
def broadcast_status (env : Env) (now : ℚ) (s : ServerState) : List Sent :=
  if s.sessions.isEmpty then []
  else s.sessions.map (fun p => (make_status (status_report env s) now, p.2.address))

/-- `DriverStationServer._apply_command`. The third component of the result is
true when the call raises: in the TELEOP/AUTO/PRACTICE/TEST branches the local
`result` is never assigned, so the `_LOGGER.info(..., result.backend,
result.success)` line raises `UnboundLocalError` after `last_command_by` and
`last_command_at` were set but before `_broadcast_status()` runs. The Python
`else` branch is exactly `CommandType.DISABLE`, the only remaining value. -/
def apply_command (env : Env) (now : ℚ) (s : ServerState) (command : CommandType)
    (client_id : String) : ServerState × List Sent × Bool :=
  let branch : Option ControlResult × String :=
    match command with
    | .enable =>
        let result := env.controller.enableResult
        (some result, if result.success then "enabled" else s.robot_state)
    | .estop => (some env.controller.estopResult, "estop")
    | .teleop => let _ := env.controller.setModeResult .TELEOP; (none, s.robot_state)
    | .auto => let _ := env.controller.setModeResult .AUTO; (none, s.robot_state)
    | .practice => let _ := env.controller.setModeResult .PRACTICE; (none, s.robot_state)
    | .test => let _ := env.controller.setModeResult .TEST; (none, s.robot_state)
    | .disable => (some env.controller.disableResult, "disabled")
  let s' : ServerState :=
    { s with robot_state := branch.2
             last_command_by := some client_id
             last_command_at := some now }
  match branch.1 with
  | none => (s', [], true)
  | some _ => (s', broadcast_status env now s', false)

/-- `DriverStationServer._extract_client_id`: the payload must carry a string
`client_id`; anything else is rejected (the caller replies
"client_id required"). -/
def extract_client_id (payload : List (String × Json)) : Option String :=
  match payload.lookup "client_id" with
  | some (.str cid) => some cid
  | _ => none

/-- The `CommandType(payload.get("command"))` conversion in `_handle_command`:
any missing or non-string or unrecognised value raises, caught as
"Unknown command". -/
def parse_command_field (payload : List (String × Json)) : Option CommandType :=
  match payload.lookup "command" with
  | some (.str c) => CommandType.fromString c
  | _ => none

/-- `DriverStationServer._handle_command`. The Bool mirrors
`apply_command`'s raised flag. -/
def handle_command (env : Env) (now : ℚ) (s : ServerState)
    (payload : List (String × Json)) (addr : ClientAddress) :
    ServerState × List Sent × Bool :=
  match extract_client_id payload with
  | none => (s, [(make_error "client_id required" now, addr)], false)
  | some client_id =>
      if (s.sessions.lookup client_id).isNone then
        (s, [(make_error "Client not registered; send HELLO first" now, addr)], false)
      else
        match parse_command_field payload with
        | none => (s, [(make_error "Unknown command" now, addr)], false)
        | some command => apply_command env now s command client_id

/-- Refreshing an existing session's address and heartbeat (the
`session.address = addr; session.update_heartbeat()` lines). -/
def touch_session (sessions : List (String × ClientSession)) (cid : String)
    (addr : ClientAddress) (now : ℚ) : List (String × ClientSession) :=
  sessions.map (fun p => if p.1 = cid then (p.1, ⟨addr, now⟩) else p)

/-- `DriverStationServer._handle_heartbeat`. -/
def handle_heartbeat (env : Env) (now : ℚ) (s : ServerState)
    (payload : List (String × Json)) (addr : ClientAddress) :
    ServerState × List Sent :=
  match extract_client_id payload with
  | none => (s, [(make_error "client_id required" now, addr)])
  | some client_id =>
      match s.sessions.lookup client_id with
      | some _ =>
          ({ s with sessions := touch_session s.sessions client_id addr now }, [])
      | none =>
          if env.config.require_hello then
            (s, [(make_error "Send HELLO before HEARTBEAT" now, addr)])
          else
            ({ s with sessions := s.sessions ++ [(client_id, ⟨addr, now⟩)] }, [])

/-- Feeding a sequence of HEARTBEAT frames from one client to the server:
each element gives the frame's send time and the source address; the frame is
exactly `make_heartbeat client_id`'s payload. -/
def run_heartbeats (env : Env) (client_id : String)
    (frames : List (ℚ × ClientAddress)) (s : ServerState) :
    ServerState × List Sent :=
  match frames with
  | [] => (s, [])
  | f :: rest =>
      let step := handle_heartbeat env f.1 s (make_heartbeat client_id f.1).payload f.2
      let next := run_heartbeats env client_id rest step.1
      (next.1, step.2 ++ next.2)

/-- The staleness test of the watchdog tick:
`now - session.last_heartbeat > heartbeat_timeout`. -/
def stale (timeout now : ℚ) (p : String × ClientSession) : Bool :=
  decide (now - p.2.last_heartbeat > timeout)

/-- One iteration of `DriverStationServer._watchdog_loop`'s body: compute the
timed-out ids from the table, pop them, and if the state is `enabled` and
(something was evicted or the table is now empty) force-apply DISABLE as the
synthetic client `"watchdog"`. -/
def watchdog_tick (env : Env) (now : ℚ) (s : ServerState) : ServerState × List Sent :=
  let timed_out : List String :=
    (s.sessions.filter (stale env.config.heartbeat_timeout now)).map Prod.fst
  let evicted : ServerState :=
    { s with sessions := s.sessions.filter (fun p => !(stale env.config.heartbeat_timeout now p)) }
  if s.robot_state = "enabled" ∧ (timed_out ≠ [] ∨ evicted.sessions = []) then
    let applied := apply_command env now evicted .disable "watchdog"
    (applied.1, applied.2.1)
  else (evicted, [])

/-- A watchdog tick whose broadcast may fail: the Bool input injects an
exception raised while emitting this tick's frames (for example the transport
send failing); it can only fire when the tick actually attempts to send. The
Bool output reports whether the tick's body raised. -/
def tick_body (env : Env) (now : ℚ) (broadcast_raises : Bool) (s : ServerState) :
    ServerState × List Sent × Bool :=
  let t := watchdog_tick env now s
  if broadcast_raises && !t.2.isEmpty then (t.1, [], true) else (t.1, t.2, false)

/-- `DriverStationServer._watchdog_loop`: the list holds one entry per tick
instant while `running` is set (time of the tick, whether that tick's
broadcast raises). The loop's only handler is `except asyncio.CancelledError`,
so any other exception raised in a tick's body propagates out of the `while`
and the loop stops. Returns the final state and how many ticks actually ran. -/
def watchdog_loop (env : Env) (ticks : List (ℚ × Bool)) (s : ServerState) :
    ServerState × ℕ :=
  match ticks with
  | [] => (s, 0)
  | t :: rest =>
      let b := tick_body env t.1 t.2 s
      if b.2.2 then (b.1, 1)
      else
        let k := watchdog_loop env rest b.1
        (k.1, k.2 + 1)

/-! Concrete sample data used by counterexamples and witnesses. -/

/-- An executor whose every call reports success. -/
def ctrlAllSucceed : Controller :=
  { enableResult := ⟨true, "enable sent", "fms"⟩
    disableResult := ⟨true, "disable sent", "fms"⟩
    estopResult := ⟨true, "estop sent", "fms"⟩
    setModeResult := fun _ => ⟨true, "mode sent", "fms"⟩ }

/-- The default configuration values relevant here
(`heartbeat_timeout = 0.25`, `require_hello = True`, no pipeline). -/
def cfg0 : ServerConfig :=
  { heartbeat_timeout := 1/4, require_hello := true, enable_pipeline := false }

def env0 : Env :=
  { config := cfg0, controller := ctrlAllSucceed, pipeline_ds_state := "" }

def addr0 : ClientAddress := ("127.0.0.1", 50000)

/-- A state in `estop` with one registered client `a`. -/
def estopState : ServerState :=
  { sessions := [("a", ⟨addr0, 0⟩)]
    robot_state := "estop"
    last_command_by := some "a"
    last_command_at := some 0 }

/-- A state in `enabled` whose single client `a` last heartbeated at time 0. -/
def enabledState1 : ServerState :=
  { sessions := [("a", ⟨addr0, 0⟩)]
    robot_state := "enabled"
    last_command_by := some "a"
    last_command_at := some 0 }

/-- A state in `enabled` with a stale client `a` and a fresh client `b`
(relative to a tick at time 1 with timeout 1/4). -/
def twoSessState : ServerState :=
  { sessions := [("a", ⟨addr0, 0⟩), ("b", ⟨("10.0.0.2", 50001), 9/10⟩)]
    robot_state := "enabled"
    last_command_by := some "a"
    last_command_at := some 0 }

/-- A disabled state with one registered client `a`. -/
def stateWithA : ServerState :=
  { sessions := [("a", ⟨addr0, 0⟩)]
    robot_state := "disabled"
    last_command_by := none
    last_command_at := none }

/-! Spec-side predicates for the decode-failure claim, written from the
claim's words and compared against `from_json` above. -/

/-- Whether the decode outcome is a raised `ProtocolError` (a `DecodeError` in
the spec's vocabulary); the Python `AttributeError` escaping `from_json` when
the top level is not a dict is not one. -/
def isProtoError : DecodeOutcome → Bool
  | .protoError _ => true
  | _ => false

/-- Field access on a JSON value: `none` when absent or when the value is not
an object. -/
def jGet : Json → String → Option Json
  | .obj fields, k => fields.lookup k
  | _, _ => none

def isObj : Json → Bool
  | .obj _ => true
  | _ => false

/-- Whether a JSON value is one of the five `MessageKind` strings. -/
def isFiveKind : Json → Bool
  | .str s => (MessageType.fromString s).isSome
  | _ => false

/-- The claim's decode-failure condition, following its words: invalid
bytes, the type field missing, the type not one of the five `MessageKind`
values, or a payload field present but not an object. -/
def decode_error_per_claim : Option Json → Bool
  | none => true
  | some j =>
      !(match jGet j "type" with
        | some tv => isFiveKind tv
        | none => false)
      || (match jGet j "payload" with
          | some pv => !(isObj pv)
          | none => false)

/-- The amended decode-failure condition: invalid bytes, or a top-level
object whose type field is absent, falsy, or not one of the five kinds, or
whose payload field is present, truthy, and not an object. A present falsy
payload is coerced to the empty object and accepted, and a valid-JSON
non-object top level raises `AttributeError`, which is not a
`ProtocolError`. -/
def decode_error_amended : Option Json → Bool
  | none => true
  | some (.obj fields) =>
      (match fields.lookup "type" with
       | none => true
       | some tv => !(jtruthy tv) || !(isFiveKind tv))
      || (match fields.lookup "payload" with
          | some pv => jtruthy pv && !(isObj pv)
          | none => false)
  | some _ => false

/-- A frame whose payload field is present and is the empty list — not an
object. -/
def listPayloadFrame : Json := .obj [("type", .str "HELLO"), ("payload", .arr [])]

/-! Theorems. -/

/-- C5: applying DISABLE sets the safety state to "disabled" unconditionally —
whatever the executor's `ControlResult` reports — while applying ENABLE sets it
to "enabled" exactly when the executor reports success and leaves it unchanged
otherwise. -/
theorem c5_disable_unconditional_enable_gated (env : Env) (now : ℚ)
    (s : ServerState) (cid : String) :
    (apply_command env now s .disable cid).1.robot_state = "disabled" ∧
    (apply_command env now s .enable cid).1.robot_state =
      (if env.controller.enableResult.success then "enabled" else s.robot_state) := by
  constructor
  · rfl
  · simp only [apply_command]

/-- C2 counterexample: in the `estop` state with registered client `a`, an
ENABLE whose executor succeeds moves the safety state to "enabled" — the
command ENABLE (≠ DISABLE) does leave `estop`, contradicting the claim. -/
theorem c2_counterexample :
    estopState.robot_state = "estop" ∧
    (estopState.sessions.lookup "a").isSome = true ∧
    env0.controller.enableResult.success = true ∧
    (apply_command env0 1 estopState .enable "a").1.robot_state = "enabled" :=
  ⟨rfl, rfl, rfl, rfl⟩

/-- C2 (amended): from `estop`, applying ESTOP or any of the four mode-select
commands leaves the safety state at `estop`, and an ENABLE whose executor fails
leaves it too; but an ENABLE whose executor succeeds moves it to "enabled", and
DISABLE moves it to "disabled" — so both ENABLE (on success) and DISABLE can
leave `estop`. -/
theorem c2_estop_transitions (env : Env) (now : ℚ) (s : ServerState) (cid : String)
    (h : s.robot_state = "estop") :
    (apply_command env now s .estop cid).1.robot_state = "estop" ∧
    (apply_command env now s .teleop cid).1.robot_state = "estop" ∧
    (apply_command env now s .auto cid).1.robot_state = "estop" ∧
    (apply_command env now s .practice cid).1.robot_state = "estop" ∧
    (apply_command env now s .test cid).1.robot_state = "estop" ∧
    (apply_command env now s .enable cid).1.robot_state =
      (if env.controller.enableResult.success then "enabled" else "estop") ∧
    (apply_command env now s .disable cid).1.robot_state = "disabled" := by
  refine ⟨rfl, h, h, h, h, ?_, rfl⟩
  simp only [apply_command, h]

theorem c2_estop_transitions_witness :
    (apply_command env0 1 estopState .estop "a").1.robot_state = "estop" :=
  (c2_estop_transitions env0 1 estopState "a" rfl).1

/-- C9: decoding the encoding of every frame built by the five message
constructors returns the frame itself. -/
theorem c9_round_trip :
    (∀ cid : String,
      from_json (some (make_hello cid).to_json) = .ok (make_hello cid)) ∧
    (∀ (cid : String) (now : ℚ),
      from_json (some (make_heartbeat cid now).to_json) = .ok (make_heartbeat cid now)) ∧
    (∀ (cid : String) (c : CommandType) (now : ℚ),
      from_json (some (make_command cid c now).to_json) = .ok (make_command cid c now)) ∧
    (∀ (r : StatusReport) (now : ℚ),
      from_json (some (make_status r now).to_json) = .ok (make_status r now)) ∧
    (∀ (msg : String) (now : ℚ),
      from_json (some (make_error msg now).to_json) = .ok (make_error msg now)) :=
  ⟨fun _ => rfl, fun _ _ => rfl, fun _ _ _ => rfl, fun _ _ => rfl, fun _ _ => rfl⟩

/-- C6: a COMMAND frame whose (string) `client_id` has no session is answered
with exactly one ERROR frame, and the server state — safety state and session
table alike — is returned untouched; the environment, in particular
`require_hello`, is arbitrary, so the rejection is independent of that
policy. -/
theorem c6_unregistered_command_rejected (env : Env) (now : ℚ) (s : ServerState)
    (payload : List (String × Json)) (addr : ClientAddress) (cid : String)
    (hcid : payload.lookup "client_id" = some (.str cid))
    (hnos : s.sessions.lookup cid = none) :
    handle_command env now s payload addr =
      (s, [(make_error "Client not registered; send HELLO first" now, addr)], false) := by
  simp only [handle_command, extract_client_id, hcid, hnos, Option.isNone_none, if_pos]

theorem c6_unregistered_command_rejected_witness :
    handle_command env0 2 estopState [("client_id", .str "b")] addr0 =
      (estopState, [(make_error "Client not registered; send HELLO first" 2, addr0)], false) :=
  c6_unregistered_command_rejected env0 2 estopState [("client_id", .str "b")] addr0 "b" rfl rfl

/-- C7, evaluated at the failing input: a TELEOP command from the registered
client `a` records `last_command_by`/`last_command_at`, but the call raises
(`UnboundLocalError`: the local `result` is never assigned in the mode-select
branches, and the log statement reads `result.backend`) before
`_broadcast_status()` runs — so, contrary to the claim, no STATUS frame is
broadcast after a mode-select command. -/
theorem c7_teleop_raises_before_broadcast :
    handle_command env0 3 stateWithA (make_command "a" .teleop 3).payload addr0 =
      ({ stateWithA with last_command_by := some "a", last_command_at := some 3 }, [], true) :=
  rfl

/-- C8: with `require_hello` active, any sequence of HEARTBEAT frames from a
client that never sent HELLO leaves the server state exactly as it was — in
particular no session is ever created for that client — and every single frame
is answered with the "Send HELLO before HEARTBEAT" ERROR. -/
theorem c8_heartbeats_without_hello (env : Env) (s : ServerState) (cid : String)
    (frames : List (ℚ × ClientAddress))
    (hreq : env.config.require_hello = true)
    (hnos : s.sessions.lookup cid = none) :
    (run_heartbeats env cid frames s).1 = s ∧
    (run_heartbeats env cid frames s).2 =
      frames.map (fun f => (make_error "Send HELLO before HEARTBEAT" f.1, f.2)) := by
  induction frames with
  | nil => exact ⟨rfl, rfl⟩
  | cons f rest ih =>
      have hextract : extract_client_id (make_heartbeat cid f.1).payload = some cid := rfl
      have hstep : handle_heartbeat env f.1 s (make_heartbeat cid f.1).payload f.2 =
          (s, [(make_error "Send HELLO before HEARTBEAT" f.1, f.2)]) := by
        simp [handle_heartbeat, hextract, hnos, hreq]
      simp only [run_heartbeats, hstep, List.map_cons]
      exact ⟨ih.1, by rw [ih.2]; rfl⟩

theorem c8_heartbeats_without_hello_witness :
    (run_heartbeats env0 "z" [(1, addr0), (2, addr0)] estopState).1 = estopState :=
  (c8_heartbeats_without_hello env0 estopState "z" [(1, addr0), (2, addr0)] rfl rfl).1

/-- C1: if the safety state is `enabled` and every session last heard a
HELLO or HEARTBEAT at or before `t0` (both refresh `last_heartbeat`), then the
watchdog tick occurring at any `now` past `t0 + heartbeat_timeout` — the loop
runs a tick every `heartbeat_timeout / 2`, so one occurs within one watchdog
period of the deadline — evicts every session and force-applies DISABLE
attributed to `"watchdog"`, making the state `disabled`. -/
theorem c1_watchdog_forces_disable (env : Env) (s : ServerState) (t0 now : ℚ)
    (henabled : s.robot_state = "enabled")
    (hquiet : ∀ p ∈ s.sessions, p.2.last_heartbeat ≤ t0)
    (hlate : t0 + env.config.heartbeat_timeout < now) :
    (watchdog_tick env now s).1.sessions = [] ∧
    (watchdog_tick env now s).1.robot_state = "disabled" ∧
    (watchdog_tick env now s).1.last_command_by = some "watchdog" := by
  have hrem : s.sessions.filter (fun p => !(stale env.config.heartbeat_timeout now p)) = [] := by
    rw [List.filter_eq_nil_iff]
    intro p hp
    have hst : stale env.config.heartbeat_timeout now p = true := by
      have h1 := hquiet p hp
      simp only [stale, decide_eq_true_eq, gt_iff_lt]
      linarith
    simp [hst]
  unfold watchdog_tick
  dsimp only
  rw [if_pos ⟨henabled, Or.inr hrem⟩]
  exact ⟨hrem, rfl, rfl⟩

theorem c1_watchdog_forces_disable_witness :
    (watchdog_tick env0 1 enabledState1).1.robot_state = "disabled" :=
  (c1_watchdog_forces_disable env0 enabledState1 0 1 rfl
    (by intro p hp; simp only [enabledState1] at hp; simp at hp; simp [hp])
    (by norm_num [env0, cfg0])).2.1

/-- C4 counterexample: the single registered client `a` went stale while the
state was `enabled`; the next watchdog tick does evict it and force DISABLE as
`"watchdog"`, but it sends no frame at all — in particular no STATUS broadcast
showing `connected_clients = 0` — because `_broadcast_status` returns early
when the session table is empty. -/
theorem c4_counterexample :
    (watchdog_tick env0 1 enabledState1).1.robot_state = "disabled" ∧
    (watchdog_tick env0 1 enabledState1).1.last_command_by = some "watchdog" ∧
    (watchdog_tick env0 1 enabledState1).1.sessions = [] ∧
    (watchdog_tick env0 1 enabledState1).2 = [] := by
  have hsta : stale env0.config.heartbeat_timeout 1 ("a", ⟨addr0, 0⟩) = true := by
    simp only [stale, decide_eq_true_eq, gt_iff_lt, env0, cfg0]
    norm_num
  have htick : watchdog_tick env0 1 enabledState1 =
      ({ sessions := [], robot_state := "disabled", last_command_by := some "watchdog",
         last_command_at := some 1 }, []) := by
    simp [watchdog_tick, enabledState1, List.filter_cons, hsta, apply_command,
      broadcast_status]
  rw [htick]
  exact ⟨rfl, rfl, rfl, rfl⟩

/-- C4 (amended): when the single registered client `a` stops heartbeating for
longer than `heartbeat_timeout` while the state is `enabled`, the next watchdog
tick evicts `a` and sets `robot_state = "disabled"`,
`last_command_by = "watchdog"`; the server's status report then shows
`connected_clients = 0` — but no STATUS frame is broadcast, since the
broadcast is skipped once the session table is empty. -/
theorem c4_stale_sole_client (env : Env) (s : ServerState) (addr : ClientAddress)
    (lh now : ℚ)
    (hsess : s.sessions = [("a", ⟨addr, lh⟩)])
    (henabled : s.robot_state = "enabled")
    (hstale : now - lh > env.config.heartbeat_timeout) :
    (watchdog_tick env now s).1.sessions = [] ∧
    (watchdog_tick env now s).1.robot_state = "disabled" ∧
    (watchdog_tick env now s).1.last_command_by = some "watchdog" ∧
    status_report env (watchdog_tick env now s).1 =
      ⟨"disabled", some "watchdog", some now, 0,
        if env.config.enable_pipeline then some env.pipeline_ds_state else some ""⟩ ∧
    (watchdog_tick env now s).2 = [] := by
  have hrem : s.sessions.filter (fun p => !(stale env.config.heartbeat_timeout now p)) = [] := by
    rw [hsess]
    simp [stale, hstale]
  unfold watchdog_tick
  dsimp only
  rw [if_pos ⟨henabled, Or.inr hrem⟩]
  refine ⟨hrem, rfl, rfl, ?_, ?_⟩
  · unfold status_report
    dsimp only [apply_command]
    rw [hrem]
    rfl
  · dsimp only [apply_command]
    unfold broadcast_status
    rw [hrem]
    rfl

theorem c4_stale_sole_client_witness :
    (watchdog_tick env0 1 enabledState1).2 = [] :=
  (c4_stale_sole_client env0 enabledState1 addr0 0 1 rfl rfl
    (by norm_num [env0, cfg0])).2.2.2.2

/-- C3, evaluated at the failing input: the state is `enabled` with one stale
and one fresh session, and the first tick's forced-DISABLE broadcast raises
while sending to the surviving session. The loop body has no handler other
than `except asyncio.CancelledError`, so the exception propagates out of the
`while` and only 1 of the 2 scheduled ticks runs — a failure inside one tick
aborts all subsequent ticks. -/
theorem c3_tick_failure_aborts_loop :
    (watchdog_loop env0 [(1, true), (2, false)] twoSessState).2 = 1 ∧
    ([((1 : ℚ), true), (2, false)] : List (ℚ × Bool)).length = 2 := by
  have hsta : stale env0.config.heartbeat_timeout 1 ("a", ⟨addr0, 0⟩) = true := by
    simp only [stale, decide_eq_true_eq, gt_iff_lt, env0, cfg0]
    norm_num
  have hstb : stale env0.config.heartbeat_timeout 1 ("b", ⟨("10.0.0.2", 50001), 9/10⟩) = false := by
    simp only [stale, decide_eq_false_iff_not, gt_iff_lt, not_lt, env0, cfg0]
    norm_num
  have htick : watchdog_tick env0 1 twoSessState =
      ({ sessions := [("b", ⟨("10.0.0.2", 50001), 9/10⟩)], robot_state := "disabled",
         last_command_by := some "watchdog", last_command_at := some 1 },
       [(make_status (status_report env0
            ⟨[("b", ⟨("10.0.0.2", 50001), 9/10⟩)], "disabled", some "watchdog", some 1⟩) 1,
         ("10.0.0.2", 50001))]) := by
    simp [watchdog_tick, twoSessState, List.filter_cons, hsta, hstb, apply_command,
      broadcast_status]
  constructor
  · simp [watchdog_loop, tick_body, htick]
  · rfl

/-- C10 counterexample: the frame `{"type": "HELLO", "payload": []}` carries a
present non-object payload, so the claim says decode must reject it; the code
instead coerces the falsy payload to the empty dict
(`payload = raw.get("payload") or {}`) and decodes successfully. -/
theorem c10_counterexample :
    decode_error_per_claim (some listPayloadFrame) = true ∧
    from_json (some listPayloadFrame) = .ok ⟨.HELLO, []⟩ :=
  ⟨rfl, rfl⟩

/-- C10 (amended): decode raises a `ProtocolError` exactly when the bytes are
not valid JSON/UTF-8, or the top level is an object whose type field is
missing or falsy or not one of the five `MessageKind` values, or whose payload
field is present, truthy, and not an object. A present falsy payload (empty
list, empty string, 0, false, null) is coerced to the empty object and
accepted, and a valid-JSON non-object top level raises `AttributeError`
instead of a `ProtocolError`. -/
theorem c10_decode_error_iff (ob : Option Json) :
    isProtoError (from_json ob) = decode_error_amended ob := by
  match ob with
  | none => rfl
  | some .null => rfl
  | some (.bool b) => rfl
  | some (.num q) => rfl
  | some (.str s) => rfl
  | some (.arr xs) => rfl
  | some (.obj fields) =>
      simp only [from_json, decode_error_amended]
      cases htv : fields.lookup "type" with
      | none => rfl
      | some tv =>
          cases hjt : jtruthy tv with
          | false => simp [hjt, isProtoError]
          | true =>
              cases tv with
              | str ts =>
                  cases hms : MessageType.fromString ts with
                  | none => simp [hjt, hms, isProtoError, isFiveKind]
                  | some t =>
                      cases hpv : fields.lookup "payload" with
                      | none => simp [hjt, hpv, hms, isProtoError, isFiveKind]
                      | some pv =>
                          cases hjp : jtruthy pv with
                          | false => simp [hjt, hpv, hjp, hms, isProtoError, isFiveKind]
                          | true =>
                              cases pv <;>
                                simp_all [isProtoError, isFiveKind, isObj, jtruthy]
              | null => simp_all [jtruthy]
              | bool b => simp_all [jtruthy, isProtoError, isFiveKind]
              | num q => simp_all [jtruthy, isProtoError, isFiveKind]
              | arr xs => simp_all [jtruthy, isProtoError, isFiveKind]
              | obj ofs => simp_all [jtruthy, isProtoError, isFiveKind]

end DSControl
